import Mathlib

/-!
Verification development for the Austin municipal-court case-analysis
repository.  The Python sources are shallowly embedded below: the nested
JSON payload becomes an inductive `JValue`; each fallible Python step
(`d[k]` indexing, `pd.to_datetime` with the default errors="raise"
behaviour, unguarded `Series.mode()[0]` indexing) becomes an
`Except`-valued function; total Python code becomes a total Lean function.
Machine floats only appear as ratios of record counts compared against
round thresholds, so they are modelled by exact rationals.
-/

namespace Court

/-! ## JSON payload model (the parsed contents of data/case_loads.json) -/

/-- Parsed JSON value, as produced by Python json.load. -/
inductive JValue : Type
  | null : JValue
  | bool (b : Bool) : JValue
  | num (n : Int) : JValue
  | str (s : String) : JValue
  | arr (elems : List JValue) : JValue
  | obj (fields : List (String × JValue)) : JValue

/-- Key lookup in a JSON mapping (first binding wins, as in Python dicts,
whose keys are unique). -/
def jlookup (kvs : List (String × JValue)) (k : String) : Option JValue :=
  (kvs.find? (fun p => p.1 == k)).map Prod.snd

/-- Python mapping indexing d[k]: raises KeyError when the key is absent. -/
def getKey (kvs : List (String × JValue)) (k : String) : Except String JValue :=
  match jlookup kvs k with
  | some v => Except.ok v
  | none => Except.error ("KeyError: " ++ k)

/-- Python v[k] with a string index on an arbitrary value: only mappings
are subscriptable by a string; anything else raises TypeError. -/
def getItem (v : JValue) (k : String) : Except String JValue :=
  match v with
  | JValue.obj kvs => getKey kvs k
  | _ => Except.error "TypeError: value is not subscriptable by a string"

/-- Contiguous-substring test on character lists, the semantics of the
Python `needle in hay` operator on strings. -/
def subList (needle : List Char) : List Char → Bool
  | [] => needle.isEmpty
  | c :: rest => needle.isPrefixOf (c :: rest) || subList needle rest

/-- Python substring operator `needle in hay`. -/
def containsSub (hay needle : String) : Bool :=
  subList needle.toList hay.toList

/-- Python membership test `k in v` for a string k: key test on mappings,
substring test on strings, element test on arrays; TypeError otherwise. -/
def pyContains (v : JValue) (k : String) : Except String Bool :=
  match v with
  | JValue.obj kvs => Except.ok (jlookup kvs k).isSome
  | JValue.str s => Except.ok (containsSub s k)
  | JValue.arr xs =>
      Except.ok (xs.any (fun x => match x with
        | JValue.str t => t == k
        | _ => false))
  | _ => Except.error "TypeError: argument is not iterable"

/-- True exactly on Except.ok, i.e. the Python code returned without
raising. -/
def exceptOk {ε α : Type} : Except ε α → Bool
  | Except.ok _ => true
  | Except.error _ => false

/-! ## Schema Resolver (src/load_and_explore.py, load_data, lines 11-43)

The comprehension `[col[\x7b'name'\x7d] for col in cols]` iterates cols and
string-indexes each element; iterating a nonempty string or mapping yields
characters or keys, which are not string-subscriptable, so only the empty
ones survive. -/

/-- Column-name extraction `[col["name"] for col in cols]`. -/
def colNames (cols : JValue) : Except String (List JValue) :=
  match cols with
  | JValue.arr xs => xs.mapM (fun c => getItem c "name")
  | JValue.str s => if s.isEmpty then Except.ok [] else Except.error "TypeError: string indices must be integers"
  | JValue.obj kvs => if kvs.isEmpty then Except.ok [] else Except.error "TypeError: string indices must be integers"
  | _ => Except.error "TypeError: value is not iterable"

/-- Unguarded chain raw["meta"]["view"]["columns"] followed by the name
comprehension, exactly as written in the source. -/
def resolveNames (kvs : List (String × JValue)) : Except String (List JValue) :=
  match getKey kvs "meta" with
  | Except.error e => Except.error e
  | Except.ok meta =>
    match getItem meta "view" with
    | Except.error e => Except.error e
    | Except.ok view =>
      match getItem view "columns" with
      | Except.error e => Except.error e
      | Except.ok cols => colNames cols

/-- Result of the Schema Resolver: the raw row payload together with the
discovered column names (none when names are unavailable). -/
structure Resolved where
  records : JValue
  names : Option (List JValue)

/-- Embedding of load_data (src/load_and_explore.py lines 11-43), up to
and including the column-name discovery.  The later DataFrame
construction and name binding (lines 44-54) are modelled separately by
`bindColumns`.  Scalar payloads fail in the source at the len() call or
at the DataFrame constructor; a null payload yields an empty frame and
continues. -/
def load_data (raw : JValue) : Except String Resolved :=
  match raw with
  | JValue.arr [] => Except.ok ⟨JValue.arr [], none⟩
  | JValue.arr (first :: rest) =>
    match first with
    | JValue.obj kvs =>
      match jlookup kvs "data" with
      | some records =>
        match resolveNames kvs with
        | Except.error e => Except.error e
        | Except.ok names => Except.ok ⟨records, some names⟩
      | none => Except.ok ⟨JValue.arr (JValue.obj kvs :: rest), none⟩
    | _ => Except.ok ⟨JValue.arr (first :: rest), none⟩
  | JValue.obj kvs =>
    match jlookup kvs "data" with
    | some records =>
      match jlookup kvs "meta" with
      | none => Except.ok ⟨records, none⟩
      | some meta =>
        match pyContains meta "view" with
        | Except.error e => Except.error e
        | Except.ok hasView =>
          if hasView then
            match getItem meta "view" with
            | Except.error e => Except.error e
            | Except.ok view =>
              match getItem view "columns" with
              | Except.error e => Except.error e
              | Except.ok cols =>
                match colNames cols with
                | Except.error e => Except.error e
                | Except.ok names => Except.ok ⟨records, some names⟩
          else Except.ok ⟨records, none⟩
    | none => Except.ok ⟨JValue.arr [JValue.obj kvs], none⟩
  | JValue.null => Except.ok ⟨JValue.null, none⟩
  | JValue.bool _ => Except.error "TypeError: object has no len"
  | JValue.num _ => Except.error "TypeError: object has no len"
  | JValue.str _ => Except.error "ValueError: DataFrame constructor not properly called"

/-! ## Column binding (src/load_and_explore.py, lines 44-54) -/

/-- Number of columns pandas assigns to a DataFrame built from a list of
positional rows: the maximum row width. -/
def dfNumCols : List (List JValue) → Nat
  | [] => 0
  | r :: rs => max r.length (dfNumCols rs)

/-- Default positional column labels of a pandas RangeIndex, rendered by
their decimal names. -/
def positionalCols (n : Nat) : List String :=
  (List.range n).map toString

/-- Embedding of lines 48-52: bind the discovered names when the list is
truthy (non-empty) and its length equals the column count; otherwise keep
positional labels and surface the diagnostic note (the Bool component,
true exactly when the fallback message is printed). -/
def bindColumns (names : Option (List String)) (rows : List (List JValue)) :
    List String × Bool :=
  match names with
  | some cs =>
      if cs ≠ [] ∧ cs.length = dfNumCols rows then (cs, false)
      else (positionalCols (dfNumCols rows), true)
  | none => (positionalCols (dfNumCols rows), true)

/-! ## Dates, times and the Field Deriver
    (src/comprehensive_analysis.py, load_clean_data, lines 24-52) -/

/-- Calendar date. -/
structure Date where
  year : Nat
  month : Nat
  day : Nat
deriving DecidableEq

/-- Numeric value of a decimal digit character. -/
def digitVal (c : Char) : Nat := c.toNat - 48

/-- Gregorian leap-year test. -/
def isLeap (y : Nat) : Bool := (y % 4 == 0 && y % 100 != 0) || y % 400 == 0

/-- Days in a month of the Gregorian calendar. -/
def daysInMonth (y m : Nat) : Nat :=
  if m = 2 then (if isLeap y then 29 else 28)
  else if m = 4 ∨ m = 6 ∨ m = 9 ∨ m = 11 then 30 else 31

/-- Modelling the pandas date parser on the ISO-formatted strings of this
dataset: a YYYY-MM-DD calendar date, optionally followed by a time part
after a T or a space separator.  Anything else fails to parse. -/
def parseDate (s : String) : Option Date :=
  match s.toList.take 10 with
  | [y1, y2, y3, y4, s1, m1, m2, s2, d1, d2] =>
    if (y1.isDigit && y2.isDigit && y3.isDigit && y4.isDigit &&
        (s1 == '-') && m1.isDigit && m2.isDigit && (s2 == '-') &&
        d1.isDigit && d2.isDigit) &&
       (match s.toList.drop 10 with
        | [] => true
        | c :: _ => c == 'T' || c == ' ') then
      let y := 1000 * digitVal y1 + 100 * digitVal y2 + 10 * digitVal y3 + digitVal y4
      let m := 10 * digitVal m1 + digitVal m2
      let d := 10 * digitVal d1 + digitVal d2
      if 1 ≤ m ∧ m ≤ 12 ∧ 1 ≤ d ∧ d ≤ daysInMonth y m then some ⟨y, m, d⟩
      else none
    else none
  | _ => none

/-- Modelling pandas to_datetime with format "%H:%M:%S" and
errors="coerce", keeping only the dt.hour projection: a strict HH:MM:SS
match yields the hour, everything else coerces to an absent value. -/
def parseTimeHour (s : String) : Option Nat :=
  match s.toList with
  | [h1, h2, c1, m1, m2, c2, x1, x2] =>
    if h1.isDigit && h2.isDigit && (c1 == ':') && m1.isDigit && m2.isDigit &&
       (c2 == ':') && x1.isDigit && x2.isDigit then
      let h := 10 * digitVal h1 + digitVal h2
      let m := 10 * digitVal m1 + digitVal m2
      let x := 10 * digitVal x1 + digitVal x2
      if h ≤ 23 ∧ m ≤ 59 ∧ x ≤ 59 then some h else none
    else none
  | _ => none

/-- Month-offset table of the Sakamoto weekday algorithm. -/
def sakamotoTable : List Nat := [0, 3, 2, 5, 0, 3, 5, 1, 4, 6, 2, 4]

/-- Weekday of a date with Monday = 0 .. Sunday = 6, matching the pandas
Series.dt.weekday convention. -/
def weekdayMon0 (dt : Date) : Nat :=
  let y := if dt.month < 3 then dt.year - 1 else dt.year
  let t := sakamotoTable.getD (dt.month - 1) 0
  ((y + y / 4 - y / 100 + y / 400 + t + dt.day) % 7 + 6) % 7

/-- Weekday names in the Monday = 0 order, as produced by dt.day_name. -/
def dayNames : List String :=
  ["Monday", "Tuesday", "Wednesday", "Thursday", "Friday", "Saturday", "Sunday"]

/-- Month names as produced by dt.strftime with the %B directive. -/
def monthNames : List String :=
  ["January", "February", "March", "April", "May", "June", "July",
   "August", "September", "October", "November", "December"]

/-- Raw case record: the source fields of one row, before derivation.
Every free-text or coded field may be missing (pandas NaN). -/
structure RawRecord where
  sid : String
  offenseDate : Option String
  offenseTime : Option String
  offenseCaseType : Option String
  caseClosed : Option String
  streetName : Option String
  chargeDescription : Option String
  agency : Option String
  race : Option String
  gender : Option String
  schoolZone : Option Bool

/-- Flag Has_Demographics (line 46): both race and gender present. -/
def Has_Demographics (r : RawRecord) : Bool :=
  !(r.race.isNone || r.gender.isNone)

/-- Flag Is_School_Zone (line 47): School Zone == True; a missing value
compares unequal, hence false. -/
def Is_School_Zone (r : RawRecord) : Bool :=
  r.schoolZone == some true

/-- Flag Is_Active (line 48): Case Closed == "ACT". -/
def Is_Active (r : RawRecord) : Bool :=
  r.caseClosed == some "ACT"

/-- Flag Is_Parking (line 49): Offense Case Type == "PK". -/
def Is_Parking (r : RawRecord) : Bool :=
  r.offenseCaseType == some "PK"

/-- Flag Is_Traffic (line 50): Offense Case Type == "TR". -/
def Is_Traffic (r : RawRecord) : Bool :=
  r.offenseCaseType == some "TR"

/-- Element-wise behaviour of pd.to_datetime on the Offense Date column
with the default errors="raise": a missing value becomes NaT, a parse
failure raises ValueError and aborts the whole load. -/
def toDatetimeStrict (v : Option String) : Except Unit (Option Date) :=
  match v with
  | none => Except.ok none
  | some s =>
    match parseDate s with
    | some d => Except.ok (some d)
    | none => Except.error ()

/-- Record after the Field Deriver: the raw fields plus every derived
column of load_clean_data lines 34-50. -/
structure DerivedRecord where
  raw : RawRecord
  offenseDateParsed : Option Date
  year : Option Nat
  month : Option Nat
  monthName : Option String
  dayOfWeek : Option String
  weekday : Option Nat
  day : Option Nat
  hour : Option Nat
  hasDemographics : Bool
  isSchoolZone : Bool
  isActive : Bool
  isParking : Bool
  isTraffic : Bool

/-- Derivation of one record (lines 34-50).  The date parse can abort
(errors="raise"); the time parse coerces failures to an absent hour. -/
def deriveRecord (r : RawRecord) : Except Unit DerivedRecord :=
  match toDatetimeStrict r.offenseDate with
  | Except.error e => Except.error e
  | Except.ok d =>
    Except.ok
      { raw := r
        offenseDateParsed := d
        year := d.map Date.year
        month := d.map Date.month
        monthName := d.map (fun dt => monthNames.getD (dt.month - 1) "")
        dayOfWeek := d.map (fun dt => dayNames.getD (weekdayMon0 dt) "")
        weekday := d.map weekdayMon0
        day := d.map Date.day
        hour := r.offenseTime.bind parseTimeHour
        hasDemographics := Has_Demographics r
        isSchoolZone := Is_School_Zone r
        isActive := Is_Active r
        isParking := Is_Parking r
        isTraffic := Is_Traffic r }

/-- Embedding of load_clean_data applied to the resolved rows: derive
every record; one unparseable Offense Date aborts the load, exactly as a
raised ValueError does in the column-wise pd.to_datetime call. -/
def load_clean_data : List RawRecord → Except Unit (List DerivedRecord)
  | [] => Except.ok []
  | r :: rs =>
    match deriveRecord r with
    | Except.error e => Except.error e
    | Except.ok d =>
      match load_clean_data rs with
      | Except.error e => Except.error e
      | Except.ok t => Except.ok (d :: t)

/-! ## Classifier (src/geographic_analysis.py) -/

/-- Corridor rule table (analyze_major_corridors, lines 69-78), in the
declared dict insertion order. -/
def corridors : List (String × List String) :=
  [("S CONGRESS AVE", ["S CONGRESS", "CONGRESS AVE"]),
   ("E 4TH ST", ["E 4TH", "4TH ST"]),
   ("W CESAR CHAVEZ", ["CESAR CHAVEZ", "W CESAR"]),
   ("I-35", ["I-35", "I35", "IH35", "IH 35"]),
   ("PRESIDENTIAL BLVD", ["PRESIDENTIAL"]),
   ("E DEAN KEETON", ["DEAN KEETON"]),
   ("NUECES ST", ["NUECES"]),
   ("ALDRICH ST", ["ALDRICH"])]

/-- Area rule table (analyze_district_patterns, lines 183-210): the
if/elif chain written as an ordered rule list. -/
def areaRules : List (String × List String) :=
  [("Downtown", ["CONGRESS", "COLORADO", "BRAZOS", "LAVACA", "SAN JACINTO", "TRINITY"]),
   ("University/Campus", ["DEAN KEETON", "GUADALUPE", "NUECES", "RIO GRANDE"]),
   ("Airport Area", ["PRESIDENTIAL", "BERGSTROM", "AIRPORT"]),
   ("East Austin", ["E 7TH", "E 6TH", "E 5TH", "CESAR CHAVEZ", "HOLLY"]),
   ("South Austin", ["S CONGRESS", "S LAMAR", "S 1ST", "OLTORF"]),
   ("North Austin", ["N LAMAR", "BURNET", "ANDERSON"]),
   ("West Austin", ["MOPAC", "WEST GATE"])]

/-- Upper-casing of one character, the ASCII case of Python str.upper
(every street string and keyword in this program is ASCII). -/
def charUpper (c : Char) : Char :=
  if 'a' ≤ c ∧ c ≤ 'z' then Char.ofNat (c.toNat - 32) else c

/-- Python str.upper on the ASCII strings of this program. -/
def pyUpper (s : String) : String :=
  ⟨s.data.map charUpper⟩

/-- Code-side match test of one rule: the input is upper-cased (the
source does str(street).upper()) and each keyword, written upper-case in
the table, is checked as a substring. -/
def matchesRule (s : String) (rule : String × List String) : Bool :=
  rule.2.any (fun k => containsSub (pyUpper s) k)

/-- Spec-side match test: a case-insensitive substring match, upper-casing
both the input and the keyword. -/
def keywordMatchCI (s : String) (rule : String × List String) : Bool :=
  rule.2.any (fun k => containsSub (pyUpper s) (pyUpper k))

/-- Embedding of categorize_corridor (lines 81-88): first matching rule
in declared order, fallback "Other" on a missing street or no match. -/
def categorize_corridor (street : Option String) : String :=
  match street with
  | none => "Other"
  | some s =>
    match corridors.find? (fun rule => matchesRule s rule) with
    | some rule => rule.1
    | none => "Other"

/-- Embedding of categorize_area (lines 183-210): first matching rule in
declared order, "Unknown" on a missing street, "Other" on no match. -/
def categorize_area (street : Option String) : String :=
  match street with
  | none => "Unknown"
  | some s =>
    match areaRules.find? (fun rule => matchesRule s rule) with
    | some rule => rule.1
    | none => "Other"

/-! ## Mode aggregates (src/comprehensive_analysis.py get_mode_safe,
    src/geographic_analysis.py, inline lambda at lines 98 and 313) -/

/-- Count of occurrences of a value in a list of observations. -/
def countVal (v : String) (vs : List String) : Nat :=
  vs.countP (fun x => x == v)

/-- Ordered insertion into a sorted list of strings. -/
def insertSorted (v : String) : List String → List String
  | [] => [v]
  | x :: xs => if v ≤ x then v :: x :: xs else x :: insertSorted v xs

/-- Insertion sort on strings, the ascending order pandas gives the
values of a multi-valued mode. -/
def sortStrings : List String → List String
  | [] => []
  | x :: xs => insertSorted x (sortStrings xs)

/-- Embedding of pandas Series.mode: missing values are dropped, then
the distinct values occurring with maximal frequency are returned in
sorted order; an all-missing or empty series has an empty mode. -/
def seriesMode (xs : List (Option String)) : List String :=
  let vs := xs.filterMap id
  let distinct := vs.eraseDups
  let best := distinct.foldr (fun v acc => max (countVal v vs) acc) 0
  sortStrings (distinct.filter (fun v => countVal v vs == best && best != 0))

/-- Embedding of get_mode_safe (comprehensive_analysis lines 55-60): the
empty-series and empty-mode cases are both guarded, so the function is
total and returns a null mode there. -/
def get_mode_safe (xs : List (Option String)) : Option String :=
  if xs.length = 0 then none
  else
    match seriesMode xs with
    | [] => none
    | v :: _ => some v

/-- Embedding of the inline aggregate
`lambda x: x.mode()[0] if len(x) > 0 else None` (geographic_analysis
lines 98 and 313): the positional indexing of the mode result is not
guarded, so an empty mode raises. -/
def modeLambda (xs : List (Option String)) : Except Unit (Option String) :=
  if xs.length > 0 then
    match seriesMode xs with
    | [] => Except.error ()
    | v :: _ => Except.ok (some v)
  else Except.ok none

/-! ## Policy Recommendation Generator
    (src/comprehensive_analysis.py, policy_recommendations, lines 253-326)

The aggregate statistics feeding the rule conditions are ratios of record
counts; they are modelled as exact rationals, and the round threshold
literals 0.5, 0.6, 0.8, 0.2 as the corresponding rationals. -/

/-- Aggregate statistics consumed by the rule engine. -/
structure PolicyStats where
  missingRaceRate : Rat
  activeRate : Rat
  parkingRate : Rat
  schoolZoneCount : Nat
  weekendRate : Rat

/-- One emitted finding; the interpolated free-text issue, action and
impact strings are console formatting and are out of the modelled core,
so only the priority and category are kept. -/
structure Recommendation where
  priority : String
  category : String

/-- Embedding of policy_recommendations: the fixed ordered list of
threshold conditions, each appending one finding when it holds. -/
def policy_recommendations (st : PolicyStats) : List Recommendation :=
  (if 1/2 < st.missingRaceRate then [⟨"HIGH", "Data Quality"⟩] else []) ++
  (if 3/5 < st.activeRate then [⟨"HIGH", "Case Management"⟩] else []) ++
  (if 4/5 < st.parkingRate then [⟨"MEDIUM", "Resource Allocation"⟩] else []) ++
  (if 0 < st.schoolZoneCount then [⟨"MEDIUM", "Public Safety"⟩] else []) ++
  (if st.weekendRate < 1/5 then [⟨"LOW", "Enforcement Strategy"⟩] else [])

/-! ## Heat-map intensity (src/geographic_analysis.py, create_heatmap_data,
    lines 149-160) -/

/-- Embedding of the pd.cut call with bins [0, 10, 50, 100, 500]: the
right-closed intervals (0,10], (10,50], (50,100], (100,500] receive the
four labels; a count outside every bin gets a missing label. -/
def intensityLabel (n : Nat) : Option String :=
  if 0 < n ∧ n ≤ 10 then some "Low"
  else if 10 < n ∧ n ≤ 50 then some "Medium"
  else if 50 < n ∧ n ≤ 100 then some "High"
  else if 100 < n ∧ n ≤ 500 then some "Critical"
  else none

/-- Exported heat-map table: one row per grouped location with its case
count and intensity label, missing when the count falls in no bin. -/
def heatmapRows (groups : List (String × Nat)) : List (String × Nat × Option String) :=
  groups.map (fun g => (g.1, g.2, intensityLabel g.2))

/-- Labels contributing to the printed intensity distribution: pandas
value_counts drops missing labels, so only rows with a present label are
counted. -/
def intensityObservations (groups : List (String × Nat)) : List String :=
  (heatmapRows groups).filterMap (fun row => row.2.2)

/-! ## Concrete fixtures -/

/-- Record whose Offense Date does not parse as a calendar date. -/
def badDateRecord : RawRecord :=
  ⟨"1", some "not-a-date", none, none, none, none, none, none, none, none, none⟩

/-- Mapping payload carrying data and a meta.view mapping that lacks the
columns key. -/
def c2BadPayload : JValue :=
  JValue.obj [("data", JValue.arr []), ("meta", JValue.obj [("view", JValue.obj [])])]

/-- Well-formed single-record table used to witness a successful load. -/
def demoRows : List RawRecord :=
  [⟨"1", some "2025-10-01T00:00:00", some "08:30:00", some "PK", some "ACT",
    some "S CONGRESS AVE", none, none, none, none, none⟩]

/-! # Theorems -/

/-- First-match characterisation of List.find?: if the element at index i
satisfies the predicate and no earlier element does, find? returns it. -/
theorem find?_at_first_index {α : Type} (p : α → Bool) :
    ∀ (l : List α) (i : Nat) (hi : i < l.length),
      p (l.get ⟨i, hi⟩) = true →
      (∀ k (hk : k < i), p (l.get ⟨k, lt_trans hk hi⟩) = false) →
      l.find? p = some (l.get ⟨i, hi⟩)
  | a :: l, 0, _, hp, _ => List.find?_cons_of_pos l hp
  | a :: l, i + 1, hi, hp, hmin => by
      have ha : p a = false := hmin 0 (Nat.succ_pos i)
      have ih := find?_at_first_index p l i (Nat.lt_of_succ_lt_succ hi) hp
        (fun k hk => hmin (k + 1) (Nat.succ_lt_succ hk))
      rw [List.find?_cons_of_neg _ (by simp [ha])]
      exact ih

/-- Width of a table whose rows all have width N. -/
theorem dfNumCols_const {N : Nat} :
    ∀ (rows : List (List JValue)), rows ≠ [] → (∀ r ∈ rows, r.length = N) →
      dfNumCols rows = N
  | [], h, _ => absurd rfl h
  | [r], _, hall => by
      simp [dfNumCols, hall r (List.mem_singleton.mpr rfl)]
  | r :: r2 :: rest, _, hall => by
      have ih := dfNumCols_const (r2 :: rest) (List.cons_ne_nil r2 rest)
        (fun x hx => hall x (List.mem_cons_of_mem r hx))
      rw [show dfNumCols (r :: r2 :: rest) = max r.length (dfNumCols (r2 :: rest)) from rfl,
        ih, hall r (List.mem_cons_self r (r2 :: rest))]
      exact Nat.max_self N

/-- Restricting a list to the entries on which an option-valued map is
present does not change its filterMap image. -/
theorem filterMap_filter_isSome {α β : Type} (f : α → Option β) :
    ∀ l : List α, l.filterMap f = (l.filter (fun a => (f a).isSome)).filterMap f
  | [] => rfl
  | a :: l => by
      cases hf : f a with
      | none =>
          simp [List.filterMap_cons, List.filter_cons, hf, filterMap_filter_isSome f l]
      | some b =>
          simp [List.filterMap_cons, List.filter_cons, hf, filterMap_filter_isSome f l]

/-- Unfolding of the intensity-distribution observations to a single
filterMap over the grouped counts. -/
theorem intensityObservations_eq (groups : List (String × Nat)) :
    intensityObservations groups = groups.filterMap (fun g => intensityLabel g.2) := by
  simp only [intensityObservations, heatmapRows, List.filterMap_map]
  rfl

/-- Category projection of the emitted findings, one if-segment per
threshold condition. -/
theorem policy_categories_eq (st : PolicyStats) :
    (policy_recommendations st).map Recommendation.category =
    (if 1/2 < st.missingRaceRate then ["Data Quality"] else []) ++
    (if 3/5 < st.activeRate then ["Case Management"] else []) ++
    (if 4/5 < st.parkingRate then ["Resource Allocation"] else []) ++
    (if 0 < st.schoolZoneCount then ["Public Safety"] else []) ++
    (if st.weekendRate < 1/5 then ["Enforcement Strategy"] else []) := by
  simp only [policy_recommendations, List.map_append,
    apply_ite (List.map Recommendation.category), List.map_cons, List.map_nil]

/-- Membership in a conditional singleton list. -/
theorem mem_ite_single (x y : String) (c : Prop) [Decidable c] :
    (x ∈ (if c then [y] else [])) ↔ (c ∧ x = y) := by
  split <;> simp_all

/-- Mapping each keyword through pyUpper is the identity on a keyword
list that is already upper-case. -/
theorem any_upper_fixed (u : String) :
    ∀ (l : List String), (∀ k ∈ l, pyUpper k = k) →
      l.any (fun k => containsSub u (pyUpper k)) = l.any (fun k => containsSub u k)
  | [], _ => rfl
  | k :: l, h => by
      have hk := h k (List.mem_cons_self k l)
      have ih := any_upper_fixed u l (fun x hx => h x (List.mem_cons_of_mem k hx))
      simp [List.any_cons, hk, ih]

/-- Every keyword in the corridor rule table is written upper-case. -/
theorem corridors_keywords_upper :
    ∀ rule ∈ corridors, ∀ k ∈ rule.2, pyUpper k = k := by decide

/-- Every keyword in the area rule table is written upper-case. -/
theorem areaRules_keywords_upper :
    ∀ rule ∈ areaRules, ∀ k ∈ rule.2, pyUpper k = k := by decide

/-- On the corridor table the case-insensitive spec-side match agrees
with the code-side match. -/
theorem matchCI_eq_corridor (s : String) :
    ∀ rule ∈ corridors, keywordMatchCI s rule = matchesRule s rule := by
  intro rule hr
  unfold keywordMatchCI matchesRule
  exact any_upper_fixed (pyUpper s) rule.2 (corridors_keywords_upper rule hr)

/-- On the area table the case-insensitive spec-side match agrees with
the code-side match. -/
theorem matchCI_eq_area (s : String) :
    ∀ rule ∈ areaRules, keywordMatchCI s rule = matchesRule s rule := by
  intro rule hr
  unfold keywordMatchCI matchesRule
  exact any_upper_fixed (pyUpper s) rule.2 (areaRules_keywords_upper rule hr)

/-- Claim C1, counterexample: on a record whose offense_date does not
parse, the Field Deriver does crash — the load raises instead of counting
and reporting the failure, so the claim is false at this input. -/
theorem c1_unparseable_date_crashes :
    load_clean_data [badDateRecord] = Except.error () := rfl

/-- Claim C1 as amended: a record whose offense_date fails to parse makes
the Field Deriver raise, aborting the whole load — the failure is visible
to the caller as an error rather than as a count, and the record is not
silently dropped. -/
theorem c1_bad_date_aborts_load (rows : List RawRecord) (r : RawRecord) (s : String)
    (hmem : r ∈ rows) (hdate : r.offenseDate = some s) (hbad : parseDate s = none) :
    load_clean_data rows = Except.error () := by
  induction rows with
  | nil => cases hmem
  | cons x xs ih =>
    rcases List.mem_cons.mp hmem with hx | hx
    · subst hx
      have hderive : deriveRecord r = Except.error () := by
        simp [deriveRecord, toDatetimeStrict, hdate, hbad]
      simp [load_clean_data, hderive]
    · have htail := ih hx
      cases hd : deriveRecord x with
      | error e => simp [load_clean_data, hd]
      | ok d => simp [load_clean_data, hd, htail]

/-- Claim C1, witness for the amended statement at a concrete record. -/
theorem c1_bad_date_aborts_load_witness :
    load_clean_data [badDateRecord] = Except.error () :=
  c1_bad_date_aborts_load [badDateRecord] badDateRecord "not-a-date"
    (List.mem_singleton.mpr rfl) rfl rfl

/-- Claim C2, counterexample: a top-level mapping payload whose meta.view
mapping lacks the columns key makes the Schema Resolver raise a KeyError,
so a mapping payload with a missing nested path does not return
normally. -/
theorem c2_missing_columns_raises :
    exceptOk (load_data c2BadPayload) = false := rfl

/-- Claim C2 as amended: the Schema Resolver returns normally when the
mapping payload lacks the data key, lacks the meta key, or has a meta
mapping without a view key (each treated as names unavailable), and when
an array payload is empty or its first element is not a mapping carrying
data; but a present meta.view without a columns key (and, in the
array-wrapped branch, any missing meta/view/columns step) raises. -/
theorem c2_resolver_guards (kvs mkvs : List (String × JValue)) (v x : JValue)
    (xs : List JValue) :
    (jlookup kvs "data" = none → exceptOk (load_data (JValue.obj kvs)) = true) ∧
    (jlookup kvs "data" = some v → jlookup kvs "meta" = none →
      exceptOk (load_data (JValue.obj kvs)) = true) ∧
    (jlookup kvs "data" = some v → jlookup kvs "meta" = some (JValue.obj mkvs) →
      jlookup mkvs "view" = none → exceptOk (load_data (JValue.obj kvs)) = true) ∧
    exceptOk (load_data (JValue.arr [])) = true ∧
    ((∀ fkvs, x = JValue.obj fkvs → jlookup fkvs "data" = none) →
      exceptOk (load_data (JValue.arr (x :: xs))) = true) := by
  refine ⟨?_, ?_, ?_, rfl, ?_⟩
  · intro h
    simp [load_data, h, exceptOk]
  · intro h1 h2
    simp [load_data, h1, h2, exceptOk]
  · intro h1 h2 h3
    simp [load_data, h1, h2, h3, pyContains, exceptOk]
  · intro h
    cases x with
    | obj fkvs => simp [load_data, h fkvs rfl, exceptOk]
    | null => rfl
    | bool b => rfl
    | num n => rfl
    | str s => rfl
    | arr es => rfl

/-- Claim C2, witness: the tolerated shapes at concrete payloads. -/
theorem c2_resolver_guards_witness :
    exceptOk (load_data (JValue.obj [("x", JValue.null)])) = true ∧
    exceptOk (load_data (JValue.obj [("data", JValue.arr [])])) = true ∧
    exceptOk (load_data (JValue.obj [("data", JValue.arr []), ("meta", JValue.obj [])])) = true ∧
    exceptOk (load_data (JValue.arr [JValue.num 1])) = true :=
  ⟨(c2_resolver_guards [("x", JValue.null)] [] JValue.null JValue.null []).1 rfl,
   (c2_resolver_guards [("data", JValue.arr [])] [] (JValue.arr []) JValue.null []).2.1 rfl rfl,
   (c2_resolver_guards [("data", JValue.arr []), ("meta", JValue.obj [])] []
      (JValue.arr []) JValue.null []).2.2.1 rfl rfl rfl,
   (c2_resolver_guards [] [] JValue.null (JValue.num 1) []).2.2.2.2
      (fun _ h => JValue.noConfusion h)⟩

/-- Claim C3: with discovered names present and non-empty and rows of
uniform width N, the resolver binds the names to the rows exactly when
their count is N (in declared order); on any mismatch it does not raise,
the fields keep their positional labels, and the diagnostic note is
surfaced. -/
theorem c3_bind_columns (cs : List String) (rows : List (List JValue)) (N : Nat)
    (hN : 0 < N) (hrows : rows ≠ []) (hw : ∀ r ∈ rows, r.length = N) :
    (cs.length = N → bindColumns (some cs) rows = (cs, false)) ∧
    (cs.length ≠ N →
      bindColumns (some cs) rows = (positionalCols (dfNumCols rows), true)) := by
  have hcols : dfNumCols rows = N := dfNumCols_const rows hrows hw
  constructor
  · intro h
    have hne : cs ≠ [] := by
      intro hnil
      subst hnil
      simp at h
      omega
    simp only [bindColumns]
    rw [if_pos ⟨hne, by rw [hcols]; exact h⟩]
  · intro h
    simp only [bindColumns]
    rw [if_neg]
    intro hcontra
    rw [hcols] at hcontra
    exact h hcontra.2

/-- Claim C3, witness: binding applies at matching width two, and falls
back to positional labels with the note on a mismatch. -/
theorem c3_bind_columns_witness :
    bindColumns (some ["Col A", "Col B"]) [[JValue.null, JValue.null]] =
      (["Col A", "Col B"], false) ∧
    bindColumns (some ["Col A"]) [[JValue.null, JValue.null]] = (["0", "1"], true) :=
  ⟨(c3_bind_columns ["Col A", "Col B"] [[JValue.null, JValue.null]] 2 (by decide)
      (by simp) (by intro r hr; simp at hr; subst hr; rfl)).1 rfl,
   (c3_bind_columns ["Col A"] [[JValue.null, JValue.null]] 2 (by decide)
      (by simp) (by intro r hr; simp at hr; subst hr; rfl)).2 (by decide)⟩

/-- Claim C4: for the fixed rule tables, both classifiers are
deterministic — two calls on the same string yield the same bucket — and
a string matching the rules at two positions, with no earlier match,
resolves to the earlier-declared bucket, by rule order alone. -/
theorem c4_classifier_deterministic (s : String) :
    (categorize_corridor (some s) = categorize_corridor (some s)) ∧
    (categorize_area (some s) = categorize_area (some s)) ∧
    (∀ i j (hi : i < corridors.length) (hj : j < corridors.length), i < j →
      matchesRule s (corridors.get ⟨i, hi⟩) = true →
      matchesRule s (corridors.get ⟨j, hj⟩) = true →
      (∀ k (hk : k < i), matchesRule s (corridors.get ⟨k, lt_trans hk hi⟩) = false) →
      categorize_corridor (some s) = (corridors.get ⟨i, hi⟩).1) ∧
    (∀ i j (hi : i < areaRules.length) (hj : j < areaRules.length), i < j →
      matchesRule s (areaRules.get ⟨i, hi⟩) = true →
      matchesRule s (areaRules.get ⟨j, hj⟩) = true →
      (∀ k (hk : k < i), matchesRule s (areaRules.get ⟨k, lt_trans hk hi⟩) = false) →
      categorize_area (some s) = (areaRules.get ⟨i, hi⟩).1) := by
  refine ⟨rfl, rfl, ?_, ?_⟩
  · intro i j hi hj hij hmi hmj hmin
    have h := find?_at_first_index (fun rule => matchesRule s rule) corridors i hi hmi hmin
    simp [categorize_corridor, h]
  · intro i j hi hj hij hmi hmj hmin
    have h := find?_at_first_index (fun rule => matchesRule s rule) areaRules i hi hmi hmin
    simp [categorize_area, h]

/-- Claim C4, witness: a street matching both the first corridor rule and
the seventh resolves to the first; one matching the second and fifth area
rules resolves to the second. -/
theorem c4_classifier_deterministic_witness :
    categorize_corridor (some "S CONGRESS AVE AT NUECES ST") = "S CONGRESS AVE" ∧
    categorize_area (some "NUECES ST AT OLTORF ST") = "University/Campus" :=
  ⟨(c4_classifier_deterministic "S CONGRESS AVE AT NUECES ST").2.2.1 0 6
      (by decide) (by decide) (by decide) (by decide) (by decide)
      (fun k hk => absurd hk (Nat.not_lt_zero k)),
   (c4_classifier_deterministic "NUECES ST AT OLTORF ST").2.2.2 1 4
      (by decide) (by decide) (by decide) (by decide) (by decide)
      (by intro k hk
          have hk0 : k = 0 := by omega
          subst hk0
          exact (by decide :
            matchesRule "NUECES ST AT OLTORF ST" (areaRules.get ⟨0, by decide⟩) = false))⟩

/-- Claim C5, counterexample: on a null street the area classifier
returns its designated null bucket "Unknown", not the fallback bucket
"Other" the claim names, so the claim is false for the area classifier. -/
theorem c5_area_null_not_other :
    categorize_area none = "Unknown" ∧ categorize_area none ≠ "Other" :=
  ⟨rfl, by decide⟩

/-- Claim C5 as amended: each classifier returns the name of the first
bucket whose keyword set has a case-insensitive substring match against
the input, and "Other" when the input matches no rule; a null input never
raises and yields "Other" from the corridor classifier but "Unknown" from
the area classifier. -/
theorem c5_classifier_fallback (street : Option String) :
    (street = none →
      categorize_corridor street = "Other" ∧ categorize_area street = "Unknown") ∧
    (∀ s, street = some s →
      ((∀ rule ∈ corridors, keywordMatchCI s rule = false) →
        categorize_corridor street = "Other") ∧
      ((∀ rule ∈ areaRules, keywordMatchCI s rule = false) →
        categorize_area street = "Other") ∧
      (∀ i (hi : i < corridors.length),
        keywordMatchCI s (corridors.get ⟨i, hi⟩) = true →
        (∀ k (hk : k < i), keywordMatchCI s (corridors.get ⟨k, lt_trans hk hi⟩) = false) →
        categorize_corridor street = (corridors.get ⟨i, hi⟩).1) ∧
      (∀ i (hi : i < areaRules.length),
        keywordMatchCI s (areaRules.get ⟨i, hi⟩) = true →
        (∀ k (hk : k < i), keywordMatchCI s (areaRules.get ⟨k, lt_trans hk hi⟩) = false) →
        categorize_area street = (areaRules.get ⟨i, hi⟩).1)) := by
  constructor
  · intro h
    subst h
    exact ⟨rfl, rfl⟩
  · intro s hs
    subst hs
    refine ⟨?_, ?_, ?_, ?_⟩
    · intro hno
      have hfind : corridors.find? (fun rule => matchesRule s rule) = none := by
        rw [List.find?_eq_none]
        intro x hx
        rw [← matchCI_eq_corridor s x hx]
        simp [hno x hx]
      simp [categorize_corridor, hfind]
    · intro hno
      have hfind : areaRules.find? (fun rule => matchesRule s rule) = none := by
        rw [List.find?_eq_none]
        intro x hx
        rw [← matchCI_eq_area s x hx]
        simp [hno x hx]
      simp [categorize_area, hfind]
    · intro i hi hmi hmin
      have hmi2 : matchesRule s (corridors.get ⟨i, hi⟩) = true := by
        rw [← matchCI_eq_corridor s _ (List.get_mem corridors i hi)]
        exact hmi
      have hmin2 : ∀ k (hk : k < i),
          matchesRule s (corridors.get ⟨k, lt_trans hk hi⟩) = false := by
        intro k hk
        rw [← matchCI_eq_corridor s _ (List.get_mem corridors k (lt_trans hk hi))]
        exact hmin k hk
      have h := find?_at_first_index (fun rule => matchesRule s rule) corridors i hi hmi2 hmin2
      simp [categorize_corridor, h]
    · intro i hi hmi hmin
      have hmi2 : matchesRule s (areaRules.get ⟨i, hi⟩) = true := by
        rw [← matchCI_eq_area s _ (List.get_mem areaRules i hi)]
        exact hmi
      have hmin2 : ∀ k (hk : k < i),
          matchesRule s (areaRules.get ⟨k, lt_trans hk hi⟩) = false := by
        intro k hk
        rw [← matchCI_eq_area s _ (List.get_mem areaRules k (lt_trans hk hi))]
        exact hmin k hk
      have h := find?_at_first_index (fun rule => matchesRule s rule) areaRules i hi hmi2 hmin2
      simp [categorize_area, h]

/-- Claim C5, witness for the amended statement: null and no-match
fallbacks and a first-match lookup at concrete streets. -/
theorem c5_classifier_fallback_witness :
    categorize_corridor none = "Other" ∧ categorize_area none = "Unknown" ∧
    categorize_corridor (some "ZILKER RD") = "Other" ∧
    categorize_area (some "ZILKER RD") = "Other" ∧
    categorize_area (some "guadalupe st") = "University/Campus" :=
  ⟨((c5_classifier_fallback none).1 rfl).1,
   ((c5_classifier_fallback none).1 rfl).2,
   (((c5_classifier_fallback (some "ZILKER RD")).2 "ZILKER RD" rfl).1 (by decide)),
   (((c5_classifier_fallback (some "ZILKER RD")).2 "ZILKER RD" rfl).2.1 (by decide)),
   (((c5_classifier_fallback (some "guadalupe st")).2 "guadalupe st" rfl).2.2.2 1
      (by decide) (by decide)
      (by intro k hk
          have hk0 : k = 0 := by omega
          subst hk0
          exact (by decide :
            keywordMatchCI "guadalupe st" (areaRules.get ⟨0, by decide⟩) = false)))⟩

/-- Claim C6: at the stated statistics (missing-demographic rate 60%,
active rate 40%, parking share 90%, school-zone count 5, weekend share
10%) exactly the Data Quality, Resource Allocation, Public Safety and
Enforcement Strategy findings fire — the active-case-backlog finding does
not, since 40% is not above the 60% threshold — and for arbitrary
statistics each finding fires exactly when its own threshold condition
holds, independently of the others. -/
theorem c6_policy_recommendations_exact :
    ((policy_recommendations ⟨3/5, 2/5, 9/10, 5, 1/10⟩).map Recommendation.category =
      ["Data Quality", "Resource Allocation", "Public Safety", "Enforcement Strategy"]) ∧
    (∀ st : PolicyStats,
      ("Data Quality" ∈ (policy_recommendations st).map Recommendation.category ↔
        1/2 < st.missingRaceRate) ∧
      ("Case Management" ∈ (policy_recommendations st).map Recommendation.category ↔
        3/5 < st.activeRate) ∧
      ("Resource Allocation" ∈ (policy_recommendations st).map Recommendation.category ↔
        4/5 < st.parkingRate) ∧
      ("Public Safety" ∈ (policy_recommendations st).map Recommendation.category ↔
        0 < st.schoolZoneCount) ∧
      ("Enforcement Strategy" ∈ (policy_recommendations st).map Recommendation.category ↔
        st.weekendRate < 1/5)) := by
  constructor
  · rw [policy_categories_eq]
    rw [if_pos (by norm_num), if_neg (by norm_num), if_pos (by norm_num),
      if_pos (by norm_num), if_pos (by norm_num)]
    rfl
  · intro st
    refine ⟨?_, ?_, ?_, ?_, ?_⟩ <;>
    · rw [policy_categories_eq]
      simp [List.mem_append, mem_ite_single]

/-- Claim C7: the derived flags are Booleans by construction and a
comparison of a missing source value against the sentinel literal yields
false instead of raising, for every record. -/
theorem c7_flags_null_safe (r : RawRecord) :
    (Is_Active { r with caseClosed := none } = false) ∧
    (Is_Parking { r with offenseCaseType := none } = false) ∧
    (Is_Traffic { r with offenseCaseType := none } = false) ∧
    (Is_School_Zone { r with schoolZone := none } = false) ∧
    (Has_Demographics { r with race := none } = false) ∧
    (Has_Demographics { r with gender := none } = false) ∧
    (Is_Active r = true ∨ Is_Active r = false) ∧
    (Is_Parking r = true ∨ Is_Parking r = false) ∧
    (Is_Traffic r = true ∨ Is_Traffic r = false) ∧
    (Has_Demographics r = true ∨ Has_Demographics r = false) := by
  have tot : ∀ b : Bool, b = true ∨ b = false := by
    intro b
    cases b
    · exact Or.inr rfl
    · exact Or.inl rfl
  refine ⟨rfl, rfl, rfl, rfl, ?_, ?_, tot _, tot _, tot _, tot _⟩
  · simp [Has_Demographics]
  · simp [Has_Demographics]

/-- Claim C8: a mode aggregate over a group with zero observations yields
a null result and never raises, in both the guarded get_mode_safe helper
and the inline lambda aggregate. -/
theorem c8_empty_group_mode_null :
    get_mode_safe [] = none ∧ modeLambda [] = Except.ok none ∧ seriesMode [] = [] :=
  ⟨rfl, rfl, rfl⟩

/-- Claim C9: loading succeeds only with one derived row per raw record
(derivation and classification never grow or shrink the table), and every
derivation and classification step is a pure function, so re-derivation
on the same raw record is idempotent and reproducible. -/
theorem c9_derivation_pure (rows : List RawRecord) (t : List DerivedRecord)
    (h : load_clean_data rows = Except.ok t) :
    t.length = rows.length ∧
    (∀ r : RawRecord, deriveRecord r = deriveRecord r) ∧
    (∀ streets : List (Option String),
      (streets.map categorize_corridor).length = streets.length ∧
      (streets.map categorize_area).length = streets.length) := by
  refine ⟨?_, fun r => rfl, fun streets => ⟨List.length_map _ _, List.length_map _ _⟩⟩
  induction rows generalizing t with
  | nil =>
    simp only [load_clean_data] at h
    cases h
    rfl
  | cons x xs ih =>
    simp only [load_clean_data] at h
    cases hd : deriveRecord x with
    | error e => rw [hd] at h; cases h
    | ok d =>
      rw [hd] at h
      cases ht : load_clean_data xs with
      | error e => rw [ht] at h; cases h
      | ok t2 =>
        rw [ht] at h
        cases h
        simp [ih t2 ht]

/-- Claim C9, witness: a successful load of the one-record fixture
preserves the row count. -/
theorem c9_derivation_pure_witness :
    ((load_clean_data demoRows).toOption.getD []).length = demoRows.length :=
  (c9_derivation_pure demoRows ((load_clean_data demoRows).toOption.getD []) rfl).1

/-- Claim C10: the Intensity label is assigned by the fixed right-closed
bins up to 500, so a location with more than 500 cases gets a null label,
contributes nothing to the printed intensity distribution, and still
appears as a row of the exported heat-map table. -/
theorem c10_heatmap_over500 (groups : List (String × Nat)) (loc : String) (n : Nat)
    (hn : 500 < n) (hmem : (loc, n) ∈ groups) :
    intensityLabel n = none ∧
    (loc, n, (none : Option String)) ∈ heatmapRows groups ∧
    (heatmapRows groups).length = groups.length ∧
    intensityObservations groups =
      intensityObservations (groups.filter (fun g => (intensityLabel g.2).isSome)) := by
  have hlabel : intensityLabel n = none := by
    have h1 : ¬(0 < n ∧ n ≤ 10) := by omega
    have h2 : ¬(10 < n ∧ n ≤ 50) := by omega
    have h3 : ¬(50 < n ∧ n ≤ 100) := by omega
    have h4 : ¬(100 < n ∧ n ≤ 500) := by omega
    simp [intensityLabel, h1, h2, h3, h4]
  refine ⟨hlabel, ?_, List.length_map _ _, ?_⟩
  · have hrow : (loc, n, intensityLabel n) ∈ heatmapRows groups :=
      List.mem_map.mpr ⟨(loc, n), hmem, rfl⟩
    rwa [hlabel] at hrow
  · rw [intensityObservations_eq, intensityObservations_eq]
    exact filterMap_filter_isSome _ groups

/-- Claim C10, witness at a location with 501 cases. -/
theorem c10_heatmap_over500_witness :
    intensityLabel 501 = none ∧
    ("GUADALUPE ST", 501, (none : Option String)) ∈ heatmapRows [("GUADALUPE ST", 501)] :=
  ⟨(c10_heatmap_over500 [("GUADALUPE ST", 501)] "GUADALUPE ST" 501 (by decide)
      (List.mem_singleton.mpr rfl)).1,
   (c10_heatmap_over500 [("GUADALUPE ST", 501)] "GUADALUPE ST" 501 (by decide)
      (List.mem_singleton.mpr rfl)).2.1⟩

end Court
